import Mathlib

/-!
# Verification of the cfddns reconciliation engine

Shallow embedding of the cfddns dynamic-DNS updater (`src/main.rs`,
`src/config.rs`, `src/ip.rs`) in Lean 4, with theorems settling the
specification claims.

Modelling conventions:
* IPv4 and IPv6 addresses are `Nat` (their numeric value; `u32` / `u128`
  in the source).  Bitwise OR and AND on addresses become `Nat.lor` /
  `Nat.land`.
* The Cloudflare API client and the network are an oracle (`World`):
  each remote endpoint is a function from the request parameters to an
  `Except`-valued response, a transport failure being `Except.error ()`.
* Every remote request a function issues is also returned as an explicit
  trace (`List Op`), so "no request was issued for this zone" is a
  statement about the trace.
* `anyhow` error chains are collapsed to an inductive `Err`; only the
  data the program puts into the message (zone name, failure count) is
  kept, the surrounding context strings are not modelled.
* `u32::saturating_add` becomes `satAdd`, `u32::checked_add` on the page
  counter becomes the explicit fuel of `zrmLoop` (see there).
-/

namespace Cfddns

/-- Model of `u32::MAX`, the saturation / overflow bound of the `u32` counters in
`main.rs`. -/
def u32Max : Nat := 4294967295

/-- Model of `u32::saturating_add` for the error counters (`errors = errors.saturating_add(1)`
in `main.rs`). -/
def satAdd (a b : Nat) : Nat := min (a + b) u32Max

/-- The upper-64-bit mask `PREFIX_MASK` of `src/ip.rs` line 25:
`Ipv6Addr::new(0xFFFF, 0xFFFF, 0xFFFF, 0xFFFF, 0, 0, 0, 0)` as a numeric
value. -/
def PFX_MASK : Nat := 0xFFFFFFFFFFFFFFFF0000000000000000

/-- A value is a well-formed pre-masked IPv6 prefix when masking it with
`PREFIX_MASK` changes nothing (its lower 64 bits are zero). -/
def maskedPfx (p : Nat) : Prop := p &&& PFX_MASK = p

instance (p : Nat) : Decidable (maskedPfx p) := by
  unfold maskedPfx; infer_instance

/-- Struct `History` of `src/config.rs` lines 49-54: the last successfully
applied address pair, both fields optional.  The source field
`ipv6_prefix` is rendered `ipv6_pfx` here. -/
structure History where
  ipv4 : Option Nat
  ipv6_pfx : Option Nat
  deriving DecidableEq, Repr

/-- Value `History::default()` (serde `Default` derive): both fields `None`. -/
def History.empty : History := ⟨none, none⟩

/-- Struct `RecordConfig` of `src/config.rs` lines 13-26.  The EUI-64 suffix
field is accessed as `record_config.suffix` in `main.rs` line 168
(declared `eui64` in `config.rs`); `None` means AAAA records are never
updated for this record. -/
structure RecordConfig where
  name : String
  ttl : Option Nat
  proxied : Option Bool
  suffix : Option Nat
  deriving DecidableEq, Repr

/-- Struct `ZoneConfig` of `src/config.rs` lines 28-35. -/
structure ZoneConfig where
  name : String
  records : List RecordConfig
  deriving DecidableEq, Repr

/-- A zone as returned by the `ListZones` endpoint; only the fields the
program reads (`zone.id`, and the name it was filtered by). -/
structure Zone where
  id : String
  name : String
  deriving DecidableEq, Repr

/-- Enum `dns::DnsContent`, restricted to the variants the program matches on;
every other variant is `other` (ignored by both index builders). -/
inductive DnsContent where
  | A (content : Nat)
  | AAAA (content : Nat)
  | other
  deriving DecidableEq, Repr

/-- A DNS record as returned by the `ListDnsRecords` endpoint; only the
fields the program reads. -/
structure DnsRecord where
  id : String
  name : String
  content : DnsContent
  deriving DecidableEq, Repr

/-- Struct `PageInfo` of `main.rs` lines 17-25 (the pagination metadata
deserialized from `result_info`). -/
structure PageInfo where
  count : Nat
  page : Nat
  per_page : Nat
  total_count : Nat
  total_pages : Nat
  deriving DecidableEq, Repr

/-- One response of the `ListDnsRecords` endpoint: a page of records and
the optional pagination metadata.  The source deserializes `result_info`
from raw JSON and can fail on malformed metadata; well-formed metadata is
modelled directly as `Option PageInfo` (the malformed-metadata branch is
a transport-level concern of serde, outside the claims). -/
structure PageResponse where
  result : List DnsRecord
  result_info : Option PageInfo
  deriving DecidableEq, Repr

/-- Struct `dns::UpdateDnsRecord` as built by `update_zone` (`main.rs` lines
152-161 and 174-183): one planned record update. -/
structure PlannedUpdate where
  zone_identifier : String
  identifier : String
  ttl : Option Nat
  proxied : Option Bool
  name : String
  content : DnsContent
  deriving DecidableEq, Repr

/-- The collapsed `anyhow` errors the embedded functions can return. -/
inductive Err where
  | listZonesTransport
  | multipleZones (name : String)
  | noZones (name : String)
  | listRecordsTransport
  | pageWrapped
  | failedRecords (n : Nat)
  | failedZones (n : Nat)
  | discovery4Failed
  | discovery6Failed
  deriving DecidableEq, Repr

/-- One remote request issued by the program; the trace of these is how
"no request was issued" claims are stated. -/
inductive Op where
  | listZones (name : String)
  | listRecords (zone_identifier : String) (page : Nat)
  | updateRecord (u : PlannedUpdate)
  | discover4
  | discover6
  deriving DecidableEq, Repr

/-- Returns `true` exactly on the remote-provider (Cloudflare) requests, as
opposed to local address discovery. -/
def Op.isRemote : Op → Bool
  | .listZones _ => true
  | .listRecords _ _ => true
  | .updateRecord _ => true
  | .discover4 => false
  | .discover6 => false

/-- The external world: each remote endpoint and each address-discovery
source as an oracle.  `Except.error ()` is a transport / IO failure. -/
structure World where
  listZones : String → Except Unit (List Zone)
  listRecords : String → Nat → Except Unit PageResponse
  updateRecord : PlannedUpdate → Except Unit Unit
  iface4 : String → Except Unit Nat
  http4 : String → Except Unit Nat
  iface6 : String → Except Unit Nat
  http6 : String → Except Unit Nat

/-- The change-gate computation for the IPv4 family, `main.rs` lines
246-261: `None` when the observed value is absent or equals history,
the observed value when history is absent or differs. -/
def new_ipv4 (ipv4 : Option Nat) (prev : Option Nat) : Option Nat :=
  match ipv4, prev with
  | none, _ => none
  | some ip, none => some ip
  | some ip, some prev => if ip = prev then none else some ip

/-- The change-gate computation for the IPv6 prefix family, `main.rs`
lines 263-278; identical shape to `new_ipv4`. -/
def new_ipv6_pfx (pfx : Option Nat) (prev : Option Nat) : Option Nat :=
  match pfx, prev with
  | none, _ => none
  | some p, none => some p
  | some p, some prev => if p = prev then none else some p

/-! ## Record index maps

`hashbrown::HashMap<String, String>` restricted to the operations the
program uses (`get`, `extend`, `collect`) is modelled as an association
list with insert-overwrites-existing semantics. -/

/-- Association list standing in for `HashMap<String, String>`. -/
abbrev SMap := List (String × String)

/-- Operation `HashMap::insert` semantics: replace the binding of `k` if present,
else append. -/
def smInsert (m : SMap) (k v : String) : SMap :=
  match m with
  | [] => [(k, v)]
  | (k2, v2) :: rest =>
    if k2 = k then (k, v) :: rest else (k2, v2) :: smInsert rest k v

/-- Operation `HashMap::get`. -/
def smGet (m : SMap) (k : String) : Option String :=
  match m with
  | [] => none
  | (k2, v2) :: rest => if k2 = k then some v2 else smGet rest k

/-- Operation `HashMap::extend`: insert every binding of `more` (later bindings
overwrite earlier ones and existing ones). -/
def smExtend (m : SMap) (more : List (String × String)) : SMap :=
  more.foldl (fun acc kv => smInsert acc kv.fst kv.snd) m

/-- Operation `collect()` of an iterator of pairs into a fresh `HashMap`. -/
def smCollect (l : List (String × String)) : SMap := smExtend [] l

/-- Struct `RecordMaps` of `main.rs` lines 57-60: the per-zone name → record-id
index, one map per record type. -/
structure RecordMaps where
  a : SMap
  aaaa : SMap
  deriving DecidableEq, Repr

/-- Whether a record's content is an A record (`matches!` filter of
`main.rs` line 85). -/
def isA : DnsRecord → Bool
  | ⟨_, _, .A _⟩ => true
  | _ => false

/-- Whether a record's content is an AAAA record (`main.rs` line 93). -/
def isAAAA : DnsRecord → Bool
  | ⟨_, _, .AAAA _⟩ => true
  | _ => false

/-! ## Remote Zone Resolver (`zone_id`, `main.rs` lines 28-55) -/

/-- Function `zone_id`: list the active zones matching `name` exactly; error on a
transport failure, on more than one match, and on zero matches;
otherwise the single zone's id. -/
def zone_id (w : World) (name : String) : Except Err String :=
  match w.listZones name with
  | .error _ => .error .listZonesTransport
  | .ok zs =>
    if zs.length > 1 then .error (.multipleZones name)
    else
      match zs.head? with
      | none => .error (.noZones name)
      | some z => .ok z.id

/-! ## Remote Record Index Builder (`zone_record_map`, `main.rs` lines 62-116) -/

/-- One iteration step's per-page A map: filter to A records, collect
name → id (`main.rs` lines 82-87). -/
def pageAMap (result : List DnsRecord) : List (String × String) :=
  (result.filter isA).map (fun r => (r.name, r.id))

/-- Per-page AAAA map (`main.rs` lines 90-95). -/
def pageAAAAMap (result : List DnsRecord) : List (String × String) :=
  (result.filter isAAAA).map (fun r => (r.name, r.id))

/-- The pagination loop of `zone_record_map`.  The source iterates with a
`u32` page counter advanced by `checked_add(1)`, failing with "Page
number wrapped" when the counter would pass `u32::MAX`; here `fuel`
counts the increments still allowed, so the top-level call passes
`fuel = u32::MAX - page` and `fuel = 0` is exactly the `checked_add`
failure.  Returns the built maps (or the error) and the trace of
`ListDnsRecords` requests issued. -/
def zrmLoop (w : World) (zone_identifier : String) :
    Nat → Nat → SMap → SMap → Except Err RecordMaps × List Op
  | fuel, page, aMap, aaaaMap =>
    match w.listRecords zone_identifier page with
    | .error _ => (.error .listRecordsTransport, [.listRecords zone_identifier page])
    | .ok resp =>
      let aMap := smExtend aMap (pageAMap resp.result)
      let aaaaMap := smExtend aaaaMap (pageAAAAMap resp.result)
      match resp.result_info with
      | none => (.ok ⟨aMap, aaaaMap⟩, [.listRecords zone_identifier page])
      | some page_info =>
        if page_info.total_pages = page then
          (.ok ⟨aMap, aaaaMap⟩, [.listRecords zone_identifier page])
        else
          match fuel with
          | 0 => (.error .pageWrapped, [.listRecords zone_identifier page])
          | fuel + 1 =>
            let r := zrmLoop w zone_identifier fuel (page + 1) aMap aaaaMap
            (r.fst, .listRecords zone_identifier page :: r.snd)

/-- Function `zone_record_map`: build the A and AAAA name → record-id maps of a
zone by paginating from page 1. -/
def zone_record_map (w : World) (zone_identifier : String) :
    Except Err RecordMaps × List Op :=
  zrmLoop w zone_identifier (u32Max - 1) 1 [] []

/-! ## Update Planner (the `for record_config` loop of `update_zone`,
`main.rs` lines 145-189) -/

/-- Planning contribution of one `RecordConfig`: first the A branch
(lines 148-166), then the AAAA branch (lines 168-188), each either
appending a `PlannedUpdate` or bumping the error counter. -/
def planStep (zone_identifier : String) (maps : RecordMaps) (ipv4 : Option Nat)
    (pfx6 : Option Nat) (acc : List PlannedUpdate × Nat) (rc : RecordConfig) :
    List PlannedUpdate × Nat :=
  let acc :=
    match ipv4 with
    | some content =>
      match smGet maps.a rc.name with
      | some record_id =>
        (acc.fst ++ [⟨zone_identifier, record_id, rc.ttl, rc.proxied, rc.name, .A content⟩],
          acc.snd)
      | none => (acc.fst, satAdd acc.snd 1)
    | none => acc
  match pfx6, rc.suffix with
  | some p, some s =>
    match smGet maps.aaaa rc.name with
    | some record_id =>
      (acc.fst ++ [⟨zone_identifier, record_id, rc.ttl, rc.proxied, rc.name, .AAAA (p ||| s)⟩],
        acc.snd)
    | none => (acc.fst, satAdd acc.snd 1)
  | _, _ => acc

/-- The whole planning loop: ordered planned updates plus the zone's
error counter after planning. -/
def planRecords (zone_identifier : String) (maps : RecordMaps) (ipv4 : Option Nat)
    (pfx6 : Option Nat) (records : List RecordConfig) : List PlannedUpdate × Nat :=
  records.foldl (planStep zone_identifier maps ipv4 pfx6) ([], 0)

/-! ## Concurrent Executor & per-zone aggregation (`update_zone`,
`main.rs` lines 118-210)

`join_all` waits for every dispatched request; the per-request outcomes
are exactly `w.updateRecord u` for each planned `u`, independent of the
others, so the concurrent execution is modelled by mapping the oracle
over the planned list and folding the failures afterwards (the order of
the fold only affects the saturating count, which is
order-insensitive). -/

/-- Fold the executor results into the error counter (`main.rs` lines
198-203). -/
def countFailures (results : List (Except Unit Unit)) (errors : Nat) : Nat :=
  results.foldl (fun e r => match r with | .error _ => satAdd e 1 | .ok _ => e) errors

/-- Function `update_zone`: resolve the zone, build the record index, plan the
updates, dispatch them all, and fail with the aggregate count when the
counter is nonzero.  Also returns the trace of requests issued. -/
def update_zone (w : World) (config : ZoneConfig) (ipv4 : Option Nat)
    (pfx6 : Option Nat) : Except Err Unit × List Op :=
  if config.records.isEmpty then (.ok (), [])
  else
    match zone_id w config.name with
    | .error e => (.error e, [.listZones config.name])
    | .ok zone_identifier =>
      match zone_record_map w zone_identifier with
      | (.error e, t) => (.error e, .listZones config.name :: t)
      | (.ok record_maps, t) =>
        let plan := planRecords zone_identifier record_maps ipv4 pfx6 config.records
        let results := plan.fst.map (fun u => w.updateRecord u)
        let errors := countFailures results plan.snd
        let trace := .listZones config.name :: t ++ plan.fst.map (fun u => Op.updateRecord u)
        if errors > 0 then (.error (.failedRecords errors), trace)
        else (.ok (), trace)

/-! ## Address discovery leaves (`src/ip.rs`) -/

/-- Operation `itertools::unique`: keep the first occurrence of each value. -/
def uniqueList (seen : List Nat) : List Nat → List Nat
  | [] => []
  | x :: xs => if seen.contains x then uniqueList seen xs else x :: uniqueList (x :: seen) xs

/-- Function `interface_ipv6_prefix` of `src/ip.rs` lines 27-45, rendered
`interface_ipv6_pfx`.  Input: the IPv6 addresses present on the named
interface (the `getifaddrs` traversal and sockaddr extraction are the
OS) and the `is_unicast_global` test of the standard library as a
predicate.  Keeps the unicast-global addresses, masks each with
`PREFIX_MASK`, deduplicates, and returns the first (error when none). -/
def interface_ipv6_pfx (addrs : List Nat) (is_unicast_global : Nat → Bool) :
    Except Unit Nat :=
  let masked := uniqueList [] ((addrs.filter is_unicast_global).map (fun ip => ip &&& PFX_MASK))
  match masked.head? with
  | some p => .ok p
  | none => .error ()

/-- Function `http_get_ipv6_prefix` of `src/ip.rs` lines 59-69, rendered
`http_get_ipv6_pfx`.  Input: the fetched-and-parsed address (the GET and
the text parse are the network); the result is masked with
`PREFIX_MASK`. -/
def http_get_ipv6_pfx (fetched : Except Unit Nat) : Except Unit Nat :=
  match fetched with
  | .ok ip => .ok (ip &&& PFX_MASK)
  | .error e => .error e

/-! ## `main` (`src/main.rs` lines 212-312) -/

/-- The configuration fields `main` reads (`Config` of `src/config.rs`
minus the paths and the API client, which live in `World` / the
persistence model). -/
structure MainCfg where
  a_interface : Option String
  a_http : Option String
  aaaa_interface : Option String
  aaaa_http : Option String
  zones : List ZoneConfig
  history : History

/-- IPv4 discovery dispatch of `main` (lines 221-229): interface source
first, else HTTP source, else disabled. -/
def discover4 (w : World) (cfg : MainCfg) : Except Err (Option Nat) × List Op :=
  match cfg.a_interface with
  | some iface =>
    match w.iface4 iface with
    | .ok ip => (.ok (some ip), [.discover4])
    | .error _ => (.error .discovery4Failed, [.discover4])
  | none =>
    match cfg.a_http with
    | some url =>
      match w.http4 url with
      | .ok ip => (.ok (some ip), [.discover4])
      | .error _ => (.error .discovery4Failed, [.discover4])
    | none => (.ok none, [])

/-- IPv6-prefix discovery dispatch of `main` (lines 231-239). -/
def discover6 (w : World) (cfg : MainCfg) : Except Err (Option Nat) × List Op :=
  match cfg.aaaa_interface with
  | some iface =>
    match w.iface6 iface with
    | .ok p => (.ok (some p), [.discover6])
    | .error _ => (.error .discovery6Failed, [.discover6])
  | none =>
    match cfg.aaaa_http with
    | some url =>
      match w.http6 url with
      | .ok p => (.ok (some p), [.discover6])
      | .error _ => (.error .discovery6Failed, [.discover6])
    | none => (.ok none, [])

/-- Zone-level error aggregation of `main` (lines 292-298). -/
def countZoneFailures (results : List (Except Err Unit × List Op)) : Nat :=
  results.foldl (fun e r => match r.fst with | .error _ => satAdd e 1 | .ok _ => e) 0

/-- Function `main` after configuration loading: the empty-zones early return,
address discovery, the change gate, the no-change early return, the
parallel zone updates, aggregation, and the persistence gate.  Returns
the process result, the trace of requests issued, and the `History`
value passed to `save_history` (or `none` when `save_history` is never
called, leaving the history file unchanged). -/
def runMain (w : World) (cfg : MainCfg) : Except Err Unit × List Op × Option History :=
  if cfg.zones.isEmpty then (.ok (), [], none)
  else
    match discover4 w cfg with
    | (.error e, t4) => (.error e, t4, none)
    | (.ok ipv4, t4) =>
      match discover6 w cfg with
      | (.error e, t6) => (.error e, t4 ++ t6, none)
      | (.ok pfx6, t6) =>
        let t := t4 ++ t6
        if ipv4.isNone && pfx6.isNone then (.ok (), t, none)
        else
          let n4 := new_ipv4 ipv4 cfg.history.ipv4
          let n6 := new_ipv6_pfx pfx6 cfg.history.ipv6_pfx
          if n4.isNone && n6.isNone then (.ok (), t, none)
          else
            let zoneResults := cfg.zones.map (fun z => update_zone w z n4 n6)
            let t := t ++ (zoneResults.map Prod.snd).flatten
            let errors := countZoneFailures zoneResults
            if errors > 0 then (.error (.failedZones errors), t, none)
            else (.ok (), t, some ⟨n4, n6⟩)

/-! ## History persistence (`src/config.rs` lines 143-192)

The file system is a map path → file content.  The content of a history
file is modelled as the `History` value it serializes: `serde_json`
serialization / deserialization is an external collaborator assumed to
be a faithful inverse pair, and the IO failure modes other than
file-not-found (unreadable file, malformed JSON) are not modelled. -/

/-- File system: each path that exists maps to the `History` its file
content deserializes to. -/
abbrev FS := List (String × History)

/-- Write (create or overwrite) a file. -/
def fsInsert (fs : FS) (path : String) (h : History) : FS :=
  match fs with
  | [] => [(path, h)]
  | (p2, h2) :: rest =>
    if p2 = path then (path, h) :: rest else (p2, h2) :: fsInsert rest path h

/-- The content of the file at `path`, when it exists. -/
def fsGet (fs : FS) (path : String) : Option History :=
  match fs with
  | [] => none
  | (p2, h2) :: rest => if p2 = path then some h2 else fsGet rest path

/-- Function `save_history` of `src/config.rs` lines 177-192: open with
create-write-truncate and write the serialized history (create the file
if absent, otherwise truncate and rewrite). -/
def save_history (path : String) (history : History) (fs : FS) : FS :=
  fsInsert fs path history

/-- Function `restore_history` of `src/config.rs` lines 143-175: deserialize the
file when it exists; when it does not exist, create it with the default
(empty) history via `save_history` and return that default. -/
def restore_history (path : String) (fs : FS) : History × FS :=
  match fsGet fs path with
  | some history => (history, fs)
  | none => (History.empty, save_history path History.empty fs)

/-! ## Helper lemmas -/

/-- Characterization of `runMain` once both discoveries succeeded:
the two early returns, the zone fan-out, aggregation and the
persistence gate. -/
theorem runMain_eq_of_discover {w : World} {cfg : MainCfg} {o4 o6 : Option Nat}
    {t4 t6 : List Op} (hz : cfg.zones ≠ [])
    (h4 : discover4 w cfg = (.ok o4, t4)) (h6 : discover6 w cfg = (.ok o6, t6)) :
    runMain w cfg =
      (if o4.isNone && o6.isNone then (.ok (), t4 ++ t6, none)
       else if (new_ipv4 o4 cfg.history.ipv4).isNone
           && (new_ipv6_pfx o6 cfg.history.ipv6_pfx).isNone then
         (.ok (), t4 ++ t6, none)
       else
         if countZoneFailures (cfg.zones.map (fun z =>
              update_zone w z (new_ipv4 o4 cfg.history.ipv4)
                (new_ipv6_pfx o6 cfg.history.ipv6_pfx))) > 0 then
           (.error (.failedZones (countZoneFailures (cfg.zones.map (fun z =>
              update_zone w z (new_ipv4 o4 cfg.history.ipv4)
                (new_ipv6_pfx o6 cfg.history.ipv6_pfx))))),
            t4 ++ t6 ++ ((cfg.zones.map (fun z =>
              update_zone w z (new_ipv4 o4 cfg.history.ipv4)
                (new_ipv6_pfx o6 cfg.history.ipv6_pfx))).map Prod.snd).flatten,
            none)
         else
           (.ok (),
            t4 ++ t6 ++ ((cfg.zones.map (fun z =>
              update_zone w z (new_ipv4 o4 cfg.history.ipv4)
                (new_ipv6_pfx o6 cfg.history.ipv6_pfx))).map Prod.snd).flatten,
            some ⟨new_ipv4 o4 cfg.history.ipv4, new_ipv6_pfx o6 cfg.history.ipv6_pfx⟩)) := by
  have hz2 : cfg.zones.isEmpty = false := by
    cases h : cfg.zones with
    | nil => exact absurd h hz
    | cons a l => simp
  unfold runMain
  rw [hz2, h4, h6]
  simp

/-- Address discovery issues no remote-provider request (IPv4 side). -/
theorem discover4_not_remote (w : World) (cfg : MainCfg) :
    ∀ op ∈ (discover4 w cfg).snd, Op.isRemote op = false := by
  unfold discover4
  rcases cfg.a_interface with _ | iface
  · rcases cfg.a_http with _ | url
    · simp
    · rcases hw : w.http4 url with e | ip <;> simp [hw, Op.isRemote]
  · rcases hw : w.iface4 iface with e | ip <;> simp [hw, Op.isRemote]

/-- Address discovery issues no remote-provider request (IPv6 side). -/
theorem discover6_not_remote (w : World) (cfg : MainCfg) :
    ∀ op ∈ (discover6 w cfg).snd, Op.isRemote op = false := by
  unfold discover6
  rcases cfg.aaaa_interface with _ | iface
  · rcases cfg.aaaa_http with _ | url
    · simp
    · rcases hw : w.http6 url with e | p <;> simp [hw, Op.isRemote]
  · rcases hw : w.iface6 iface with e | p <;> simp [hw, Op.isRemote]

/-! ## Concrete worlds and configurations used by the witnesses and
counterexamples -/

/-- A world where every request fails; no claim's early return consults
it. -/
def wErr : World :=
  ⟨fun _ => .error (), fun _ _ => .error (), fun _ => .error (),
   fun _ => .error (), fun _ => .error (), fun _ => .error (), fun _ => .error ()⟩

/-- A record configuration with no EUI-64 suffix. -/
def recWWW : RecordConfig := ⟨"www.example.com", none, none, none⟩

/-- A zone with one record. -/
def zoneExample : ZoneConfig := ⟨"example.com", [recWWW]⟩

/-- A configuration with no zones at all. -/
def cfgNoZones : MainCfg := ⟨none, none, none, none, [], History.empty⟩

/-! ## C10 -/

/-- C10: if the configured zones list is empty, `main` returns success
immediately: no address discovery is performed, no request of any kind
is issued, and no history is written. -/
theorem c10_empty_zones_early_success (w : World) (cfg : MainCfg)
    (hz : cfg.zones = []) : runMain w cfg = (.ok (), [], none) := by
  unfold runMain
  rw [hz]
  simp

/-- Witness for C10 at a concrete world and configuration. -/
theorem c10_empty_zones_early_success_witness :
    runMain wErr cfgNoZones = (.ok (), [], none) :=
  c10_empty_zones_early_success wErr cfgNoZones rfl

/-! ## C2 -/

/-- The world used by the C2 witness: the HTTP IPv4 source answers
`5`. -/
def wC2 : World :=
  ⟨fun _ => .error (), fun _ _ => .error (), fun _ => .error (),
   fun _ => .error (), fun _ => .ok 5, fun _ => .error (), fun _ => .error ()⟩

/-- The configuration used by the C2 witness: HTTP IPv4 discovery, one
zone, and a history already equal to the observed address. -/
def cfgC2 : MainCfg := ⟨none, some "u4", none, none, [zoneExample], ⟨some 5, none⟩⟩

/-- C2: the Change Gate computes each family independently — output
absent iff the observed value is absent or equals history, output equal
to the observed value when history is absent or differs, both outputs
absent on identical pairs — and when both outputs are absent the run
returns success having issued no remote-provider request and written no
history. -/
theorem c2_change_gate (w : World) (cfg : MainCfg) (o4 o6 : Option Nat)
    (t4 t6 : List Op) (hz : cfg.zones ≠ [])
    (h4 : discover4 w cfg = (.ok o4, t4)) (h6 : discover6 w cfg = (.ok o6, t6))
    (hg4 : new_ipv4 o4 cfg.history.ipv4 = none)
    (hg6 : new_ipv6_pfx o6 cfg.history.ipv6_pfx = none) :
    (∀ o h : Option Nat, (new_ipv4 o h = none ↔ o = none ∨ o = h)
        ∧ (new_ipv6_pfx o h = none ↔ o = none ∨ o = h))
    ∧ (∀ (o h : Option Nat) (v : Nat), o = some v → h ≠ o →
        new_ipv4 o h = some v ∧ new_ipv6_pfx o h = some v)
    ∧ (∀ o : Option Nat, new_ipv4 o o = none ∧ new_ipv6_pfx o o = none)
    ∧ runMain w cfg = (.ok (), t4 ++ t6, none)
    ∧ (∀ op ∈ t4 ++ t6, Op.isRemote op = false) := by
  refine ⟨?_, ?_, ?_, ?_, ?_⟩
  · intro o h
    rcases o with _ | v <;> rcases h with _ | p <;>
      simp [new_ipv4, new_ipv6_pfx]
  · rintro o h v rfl hne
    rcases h with _ | p
    · simp [new_ipv4, new_ipv6_pfx]
    · have hvp : v ≠ p := fun hvp => hne (by simp [hvp])
      simp [new_ipv4, new_ipv6_pfx, hvp]
  · intro o
    rcases o with _ | v <;> simp [new_ipv4, new_ipv6_pfx]
  · rw [runMain_eq_of_discover hz h4 h6]
    rcases ho4 : o4 with _ | a <;> rcases ho6 : o6 with _ | b <;>
      simp_all [hg4, hg6]
  · intro op hop
    rcases List.mem_append.mp hop with hmem | hmem
    · have := discover4_not_remote w cfg op
      rw [h4] at this
      exact this hmem
    · have := discover6_not_remote w cfg op
      rw [h6] at this
      exact this hmem

/-- Witness for C2: at the concrete world `wC2` and configuration
`cfgC2` (observed IPv4 equal to history, IPv6 disabled) the run
short-circuits with success, issuing only the discovery request and
writing no history. -/
theorem c2_change_gate_witness :
    runMain wC2 cfgC2 = (.ok (), [Op.discover4], none) := by
  have h := (c2_change_gate wC2 cfgC2 (some 5) none [Op.discover4] []
    (by simp [cfgC2]) rfl rfl rfl rfl).2.2.2.1
  simpa using h

/-- Characterization of `runMain` when both discoveries succeeded and
the Change Gate reports at least one change: the run reduces to the zone
fan-out, aggregation, and the persistence gate. -/
theorem runMain_changed_eq {w : World} {cfg : MainCfg} {o4 o6 : Option Nat}
    {t4 t6 : List Op} (hz : cfg.zones ≠ [])
    (h4 : discover4 w cfg = (.ok o4, t4)) (h6 : discover6 w cfg = (.ok o6, t6))
    (hchanged : ¬(new_ipv4 o4 cfg.history.ipv4 = none
        ∧ new_ipv6_pfx o6 cfg.history.ipv6_pfx = none)) :
    runMain w cfg =
      (if countZoneFailures (cfg.zones.map (fun z =>
            update_zone w z (new_ipv4 o4 cfg.history.ipv4)
              (new_ipv6_pfx o6 cfg.history.ipv6_pfx))) > 0 then
         (.error (.failedZones (countZoneFailures (cfg.zones.map (fun z =>
            update_zone w z (new_ipv4 o4 cfg.history.ipv4)
              (new_ipv6_pfx o6 cfg.history.ipv6_pfx))))),
          t4 ++ t6 ++ ((cfg.zones.map (fun z =>
            update_zone w z (new_ipv4 o4 cfg.history.ipv4)
              (new_ipv6_pfx o6 cfg.history.ipv6_pfx))).map Prod.snd).flatten,
          none)
       else
         (.ok (),
          t4 ++ t6 ++ ((cfg.zones.map (fun z =>
            update_zone w z (new_ipv4 o4 cfg.history.ipv4)
              (new_ipv6_pfx o6 cfg.history.ipv6_pfx))).map Prod.snd).flatten,
          some ⟨new_ipv4 o4 cfg.history.ipv4, new_ipv6_pfx o6 cfg.history.ipv6_pfx⟩)) := by
  rw [runMain_eq_of_discover hz h4 h6]
  have hobs : (o4.isNone && o6.isNone) = false := by
    rcases o4 with _ | a
    · rcases o6 with _ | b
      · exact absurd ⟨rfl, rfl⟩ hchanged
      · simp
    · simp
  have hgate : ((new_ipv4 o4 cfg.history.ipv4).isNone
      && (new_ipv6_pfx o6 cfg.history.ipv6_pfx).isNone) = false := by
    rcases h1 : new_ipv4 o4 cfg.history.ipv4 with _ | x
    · rcases h2 : new_ipv6_pfx o6 cfg.history.ipv6_pfx with _ | y
      · exact absurd ⟨h1, h2⟩ hchanged
      · simp
    · simp
  rw [hobs, hgate]
  simp

/-! ## C1 -/

/-- C1: once the Change Gate reports a change, the new Address Pair is
persisted iff the aggregate zone-failure count is zero — every zone
succeeding makes `main` call `save_history` with the new pair, while any
zone failure makes the run return the aggregate zone-failure error and
perform no history write at all. -/
theorem c1_persistence_gate (w : World) (cfg : MainCfg) (o4 o6 : Option Nat)
    (t4 t6 : List Op) (n4 n6 : Option Nat) (errors : Nat) (hz : cfg.zones ≠ [])
    (h4 : discover4 w cfg = (.ok o4, t4)) (h6 : discover6 w cfg = (.ok o6, t6))
    (hn4 : new_ipv4 o4 cfg.history.ipv4 = n4)
    (hn6 : new_ipv6_pfx o6 cfg.history.ipv6_pfx = n6)
    (hchanged : ¬(n4 = none ∧ n6 = none))
    (herr : countZoneFailures (cfg.zones.map (fun z => update_zone w z n4 n6)) = errors) :
    (errors = 0 →
      runMain w cfg =
        (.ok (),
         t4 ++ t6 ++ ((cfg.zones.map (fun z => update_zone w z n4 n6)).map Prod.snd).flatten,
         some ⟨n4, n6⟩))
    ∧ (0 < errors →
      runMain w cfg =
        (.error (.failedZones errors),
         t4 ++ t6 ++ ((cfg.zones.map (fun z => update_zone w z n4 n6)).map Prod.snd).flatten,
         none)) := by
  subst hn4
  subst hn6
  subst herr
  rw [runMain_changed_eq hz h4 h6 hchanged]
  constructor
  · intro h0
    simp [h0]
  · intro hpos
    simp [Nat.pos_iff_ne_zero.mp hpos, hpos]

/-- The world used by the C1 witness: one zone `example.com` with id
`zid1`, one existing A record, every update succeeding, the HTTP IPv4
source answering `9`. -/
def wC1 : World :=
  ⟨fun name => if name = "example.com" then .ok [⟨"zid1", "example.com"⟩] else .error (),
   fun zid page => if zid = "zid1" ∧ page = 1 then
       .ok ⟨[⟨"rid-a", "www.example.com", .A 0⟩], none⟩
     else .error (),
   fun _ => .ok (),
   fun _ => .error (), fun _ => .ok 9, fun _ => .error (), fun _ => .error ()⟩

/-- The configuration used by the C1 witness: empty history, HTTP IPv4
discovery, one zone with one record. -/
def cfgC1 : MainCfg := ⟨none, some "u4", none, none, [zoneExample], History.empty⟩

/-- The single update the C1 witness run plans. -/
def planC1 : PlannedUpdate := ⟨"zid1", "rid-a", none, none, "www.example.com", .A 9⟩

/-- Witness for C1 (the success branch): at `wC1`/`cfgC1` the run
updates one record and persists the new pair. -/
theorem c1_persistence_gate_witness :
    runMain wC1 cfgC1 =
      (.ok (),
       [Op.discover4, Op.listZones "example.com", Op.listRecords "zid1" 1,
        Op.updateRecord planC1],
       some ⟨some 9, none⟩) := by
  have h := (c1_persistence_gate wC1 cfgC1 (some 9) none [Op.discover4] []
    (some 9) none 0 (by simp [cfgC1]) rfl rfl rfl rfl (by simp) rfl).1 rfl
  simpa [cfgC1, zoneExample, planC1] using h

/-! ## C3 -/

/-- The world used for C3: HTTP discovery answers IPv4 `5` and IPv6
prefix `2^96`; the zone has one existing AAAA record; updates
succeed. -/
def wC3 : World :=
  ⟨fun name => if name = "example.com" then .ok [⟨"zid1", "example.com"⟩] else .error (),
   fun zid page => if zid = "zid1" ∧ page = 1 then
       .ok ⟨[⟨"rid-b", "www.example.com", .AAAA 0⟩], none⟩
     else .error (),
   fun _ => .ok (),
   fun _ => .error (), fun _ => .ok 5, fun _ => .error (), fun _ => .ok (2 ^ 96)⟩

/-- The configuration used for C3: both families discovered over HTTP,
history holding IPv4 `5` (equal to the observation) and a different
IPv6 prefix, one zone whose record carries an EUI-64 suffix. -/
def cfgC3 : MainCfg :=
  ⟨none, some "u4", none, some "u6",
   [⟨"example.com", [⟨"www.example.com", none, none, some 1⟩]⟩],
   ⟨some 5, some (2 ^ 97)⟩⟩

/-- Counterexample to C3: at `wC3`/`cfgC3` the run is fully successful,
the observed IPv4 (`5`) is present and equal to the history, yet the
persisted History has `ipv4 = none` — the unchanged family's value is
dropped, not preserved as the claim states. -/
theorem c3_counterexample :
    discover4 wC3 cfgC3 = (.ok (some 5), [.discover4])
    ∧ cfgC3.history.ipv4 = some 5
    ∧ (runMain wC3 cfgC3).1 = .ok ()
    ∧ (runMain wC3 cfgC3).2.2 = some ⟨none, some (2 ^ 96)⟩ :=
  ⟨rfl, rfl, rfl, rfl⟩

/-- C3 (amended): after a fully successful run the persisted History is
exactly the Change Gate's output pair — each family's field is the
newly-applied value when that family changed, and absent when it did
not; an observed value equal to history is dropped from the persisted
History rather than preserved. -/
theorem c3_saved_history_is_gate_output (w : World) (cfg : MainCfg)
    (o4 o6 : Option Nat) (t4 t6 : List Op) (n4 n6 : Option Nat)
    (hz : cfg.zones ≠ [])
    (h4 : discover4 w cfg = (.ok o4, t4)) (h6 : discover6 w cfg = (.ok o6, t6))
    (hn4 : new_ipv4 o4 cfg.history.ipv4 = n4)
    (hn6 : new_ipv6_pfx o6 cfg.history.ipv6_pfx = n6)
    (hchanged : ¬(n4 = none ∧ n6 = none))
    (hok : countZoneFailures (cfg.zones.map (fun z => update_zone w z n4 n6)) = 0) :
    (runMain w cfg).2.2 = some ⟨n4, n6⟩
    ∧ (o4 ≠ none → o4 = cfg.history.ipv4 → n4 = none)
    ∧ (o6 ≠ none → o6 = cfg.history.ipv6_pfx → n6 = none) := by
  subst hn4
  subst hn6
  refine ⟨?_, ?_, ?_⟩
  · rw [runMain_changed_eq hz h4 h6 hchanged]
    simp [hok]
  · rintro hne rfl
    rcases h : cfg.history.ipv4 with _ | v
    · exact absurd h hne
    · simp [new_ipv4, h]
  · rintro hne rfl
    rcases h : cfg.history.ipv6_pfx with _ | v
    · exact absurd h hne
    · simp [new_ipv6_pfx, h]

/-- Witness for the amended C3 at `wC3`/`cfgC3`: the persisted History
is the gate output `⟨none, some (2^96)⟩`. -/
theorem c3_saved_history_is_gate_output_witness :
    (runMain wC3 cfgC3).2.2 = some ⟨none, some (2 ^ 96)⟩ :=
  (c3_saved_history_is_gate_output wC3 cfgC3 (some 5) (some (2 ^ 96))
    [Op.discover4] [Op.discover6] none (some (2 ^ 96)) (by simp [cfgC3]) rfl rfl
    rfl rfl (by simp) rfl).1

/-! ## C4 -/

/-- The world used by the C4 counterexample: page 1 of the record
listing succeeds with pagination metadata reporting `total_pages = 0`,
and every other page is a transport error. -/
def wC4 : World :=
  ⟨fun _ => .error (),
   fun _ page => if page = 1 then .ok ⟨[], some ⟨0, 1, 20, 0, 0⟩⟩ else .error (),
   fun _ => .error (),
   fun _ => .error (), fun _ => .error (), fun _ => .error (), fun _ => .error ()⟩

/-- Counterexample to C4: at `wC4` the first response reports
`total_pages = 0`, yet `zone_record_map` does not exit the loop on it —
it requests page 2 as well (and fails there on the transport error),
instead of returning the empty index after the first response as the
claim states. -/
theorem c4_counterexample :
    zone_record_map wC4 "zid1" =
      (.error .listRecordsTransport, [.listRecords "zid1" 1, .listRecords "zid1" 2]) :=
  rfl

/-- Under a provider that always answers with pagination metadata
reporting `total_pages = 0`, every suffix of the pagination loop ends in
the page-counter-overflow error. -/
theorem zrmLoop_zero_pages (w : World) (zid : String)
    (hyp : ∀ page, 1 ≤ page → ∃ resp pi, w.listRecords zid page = .ok resp
        ∧ resp.result_info = some pi ∧ pi.total_pages = 0) :
    ∀ (fuel page : Nat) (aM aaaaM : SMap), 1 ≤ page →
      (zrmLoop w zid fuel page aM aaaaM).fst = .error .pageWrapped := by
  intro fuel
  induction fuel with
  | zero =>
    intro page aM aaaaM hp
    obtain ⟨resp, pi, hr, hi, ht⟩ := hyp page hp
    unfold zrmLoop
    rw [hr]
    simp only [hi]
    rw [if_neg (by omega)]
  | succ f ih =>
    intro page aM aaaaM hp
    obtain ⟨resp, pi, hr, hi, ht⟩ := hyp page hp
    unfold zrmLoop
    rw [hr]
    simp only [hi]
    rw [if_neg (by omega)]
    simpa using ih (page + 1) _ _ (by omega)

/-- C4 (amended): the pagination loop does **not** exit on the first
`total_pages = 0` response.  When pagination metadata is always present
and always reports zero total pages, `zone_record_map` keeps requesting
further pages until the `u32` page counter would wrap and then fails
with the page-counter-overflow error; the loop exits on a first response
only when that response carries no pagination metadata. -/
theorem c4_zero_total_pages (w : World) (zid : String)
    (hyp : ∀ page, 1 ≤ page → ∃ resp pi, w.listRecords zid page = .ok resp
        ∧ resp.result_info = some pi ∧ pi.total_pages = 0) :
    (zone_record_map w zid).fst = .error .pageWrapped
    ∧ (∀ (w2 : World) (zid2 : String) (resp : PageResponse),
        w2.listRecords zid2 1 = .ok resp → resp.result_info = none →
        zone_record_map w2 zid2 =
          (.ok ⟨smExtend [] (pageAMap resp.result), smExtend [] (pageAAAAMap resp.result)⟩,
           [.listRecords zid2 1])) := by
  constructor
  · exact zrmLoop_zero_pages w zid hyp (u32Max - 1) 1 [] [] (by omega)
  · intro w2 zid2 resp hr hi
    unfold zone_record_map zrmLoop
    rw [hr]
    simp [hi]

/-- The world used by the C4 witness: every record-listing page answers
successfully with `total_pages = 0` metadata. -/
def wC4all : World :=
  ⟨fun _ => .error (),
   fun _ _ => .ok ⟨[], some ⟨0, 1, 20, 0, 0⟩⟩,
   fun _ => .error (),
   fun _ => .error (), fun _ => .error (), fun _ => .error (), fun _ => .error ()⟩

/-- Witness for the amended C4 at `wC4all`: the index build fails with
the page-counter-overflow error. -/
theorem c4_zero_total_pages_witness :
    (zone_record_map wC4all "zid1").fst = .error .pageWrapped :=
  (c4_zero_total_pages wC4all "zid1"
    (fun _ _ => ⟨⟨[], some ⟨0, 1, 20, 0, 0⟩⟩, ⟨0, 1, 20, 0, 0⟩, rfl, rfl, rfl⟩)).1

/-! ## C5 -/

/-- Record maps used for C5: one AAAA record. -/
def mapsC5 : RecordMaps := ⟨[], [("www.example.com", "rid-b")]⟩

/-- A record configuration whose suffix only sets lower-64 bits. -/
def rcS1 : RecordConfig := ⟨"www.example.com", none, none, some 1⟩

/-- A record configuration whose suffix agrees with `rcS1` on the lower
64 bits but also sets bit 64 (inside the masked-out upper region). -/
def rcS2 : RecordConfig := ⟨"www.example.com", none, none, some (2 ^ 64 + 1)⟩

/-- Counterexample to C5: the suffixes of `rcS1` and `rcS2` agree on the
lower 64 bits, yet with the same present prefix `2^96` the two planned
AAAA contents differ — the code computes `prefix | suffix` without
masking the suffix, so bits the suffix sets in the upper-64-bit region
do affect the content. -/
theorem c5_counterexample :
    (2 ^ 64 + 1) % 2 ^ 64 = (1 : Nat) % 2 ^ 64
    ∧ planRecords "zid1" mapsC5 none (some (2 ^ 96)) [rcS1]
        = ([⟨"zid1", "rid-b", none, none, "www.example.com", .AAAA (2 ^ 96 + 1)⟩], 0)
    ∧ planRecords "zid1" mapsC5 none (some (2 ^ 96)) [rcS2]
        = ([⟨"zid1", "rid-b", none, none, "www.example.com",
             .AAAA (2 ^ 96 + 2 ^ 64 + 1)⟩], 0)
    ∧ (2 ^ 96 + 1 : Nat) ≠ 2 ^ 96 + 2 ^ 64 + 1 := by
  refine ⟨by norm_num, rfl, rfl, by norm_num⟩

/-- C5 (amended): for a Record Configuration with a configured suffix,
a present new prefix, and the record name found in the AAAA index, the
planned AAAA content is exactly `prefix ||| suffix`, the suffix taken as
given (bits it sets in the upper-64-bit region carry into the content —
only suffixes equal as full 128-bit values are guaranteed identical
content); and a Record Configuration with no suffix never has an AAAA
update planned, regardless of prefix changes. -/
theorem c5_aaaa_planning (zid : String) (maps : RecordMaps) (rc : RecordConfig)
    (p s : Nat) (rid : String)
    (hs : rc.suffix = some s) (hfound : smGet maps.aaaa rc.name = some rid) :
    (∀ (ipv4 : Option Nat) (acc : List PlannedUpdate × Nat),
      (planStep zid maps ipv4 (some p) acc rc).fst.getLast?
        = some ⟨zid, rid, rc.ttl, rc.proxied, rc.name, .AAAA (p ||| s)⟩)
    ∧ (∀ rc2 : RecordConfig, rc2.suffix = none →
        ∀ (ipv4 pfx6 : Option Nat) (acc : List PlannedUpdate × Nat),
        ∀ u ∈ (planStep zid maps ipv4 pfx6 acc rc2).fst,
          u ∈ acc.fst ∨ ∃ c, u.content = .A c) := by
  constructor
  · intro ipv4 acc
    rcases ipv4 with _ | c4
    · simp [planStep, hs, hfound]
    · rcases hg : smGet maps.a rc.name with _ | rid2 <;>
        simp [planStep, hs, hfound, hg]
  · intro rc2 h2 ipv4 pfx6 acc u hu
    rcases ipv4 with _ | c4 <;> rcases pfx6 with _ | pv <;>
      [skip; skip; rcases hg : smGet maps.a rc2.name with _ | rid2;
       rcases hg : smGet maps.a rc2.name with _ | rid2] <;>
      simp [planStep, h2, *] at hu <;>
      first
      | tauto
      | (rcases hu with hu | hu
         · exact Or.inl hu
         · exact Or.inr ⟨c4, by rw [hu]⟩)

/-- Witness for the amended C5: with prefix `2^96` and suffix `1`, the
planned AAAA content is `2^96 ||| 1`. -/
theorem c5_aaaa_planning_witness :
    (planStep "zid1" mapsC5 none (some (2 ^ 96)) ([], 0) rcS1).fst.getLast?
      = some ⟨"zid1", "rid-b", none, none, "www.example.com", .AAAA (2 ^ 96 ||| 1)⟩ :=
  (c5_aaaa_planning "zid1" mapsC5 rcS1 (2 ^ 96) 1 "rid-b" rfl rfl).1 none ([], 0)

/-! ## C6 -/

/-- C6: within a zone, planner errors (missing records) and executor
errors (failed updates) accumulate in one counter — the execution fold
starts from the planning counter — every planned update is dispatched
regardless of sibling failures (the trace contains an update request for
each planned update), and the zone fails with the aggregate
record-failure error exactly when the final counter is nonzero. -/
theorem c6_error_aggregation (w : World) (config : ZoneConfig)
    (ipv4 pfx6 : Option Nat) (zid : String) (maps : RecordMaps) (t : List Op)
    (plans : List PlannedUpdate) (perrs total : Nat)
    (hne : config.records ≠ [])
    (hzid : zone_id w config.name = .ok zid)
    (hmap : zone_record_map w zid = (.ok maps, t))
    (hplan : planRecords zid maps ipv4 pfx6 config.records = (plans, perrs))
    (htot : countFailures (plans.map (fun u => w.updateRecord u)) perrs = total) :
    update_zone w config ipv4 pfx6 =
      ((if total = 0 then .ok () else .error (.failedRecords total)),
       .listZones config.name :: t ++ plans.map (fun u => Op.updateRecord u)) := by
  have hempty : config.records.isEmpty = false := by
    cases h : config.records with
    | nil => exact absurd h hne
    | cons a l => simp
  unfold update_zone
  rw [hempty, hzid]
  simp only [Bool.false_eq_true, if_false, hmap, hplan]
  rcases Nat.eq_zero_or_pos total with h0 | hpos
  · simp [htot, h0]
  · simp [htot, Nat.pos_iff_ne_zero.mp hpos, hpos]

/-- The world used by the C6 witness: one zone with one existing A
record; every update request fails. -/
def wC6 : World :=
  ⟨fun name => if name = "example.com" then .ok [⟨"zid1", "example.com"⟩] else .error (),
   fun zid page => if zid = "zid1" ∧ page = 1 then
       .ok ⟨[⟨"rid-a", "www.example.com", .A 0⟩], none⟩
     else .error (),
   fun _ => .error (),
   fun _ => .error (), fun _ => .error (), fun _ => .error (), fun _ => .error ()⟩

/-- The zone used by the C6 witness: one record that exists remotely and
one that does not. -/
def zoneC6 : ZoneConfig :=
  ⟨"example.com", [recWWW, ⟨"missing.example.com", none, none, none⟩]⟩

/-- The single update the C6 witness run plans and dispatches. -/
def planC6 : PlannedUpdate := ⟨"zid1", "rid-a", none, none, "www.example.com", .A 9⟩

/-- Witness for C6: one planner error (missing record) plus one executor
error (failed update) yield the aggregate failure count 2, and the
planned update was dispatched despite the planner error. -/
theorem c6_error_aggregation_witness :
    update_zone wC6 zoneC6 (some 9) none =
      (.error (.failedRecords 2),
       [Op.listZones "example.com", Op.listRecords "zid1" 1, Op.updateRecord planC6]) := by
  have h := c6_error_aggregation wC6 zoneC6 (some 9) none "zid1"
    ⟨[("www.example.com", "rid-a")], []⟩ [.listRecords "zid1" 1] [planC6] 1 2
    (by simp [zoneC6]) rfl rfl rfl rfl
  simpa [zoneC6, planC6] using h

/-! ## C7 -/

/-- C7: zone resolution errors on ambiguity (more than one active match,
never silently picking one) and on zero matches, returns the single
match's id otherwise (and the transport-failure error value is also
characterized); and whenever zone resolution fails for a zone — for any
failure: transport, zero matches, or ambiguity — no record listing and
no record update is issued for that zone (the zone's trace is exactly
the one zone-listing request and the zone returns that resolution
error). -/
theorem c7_zone_resolution (w : World) (config : ZoneConfig)
    (ipv4 pfx6 : Option Nat) (e : Err)
    (hne : config.records ≠ [])
    (hfail : zone_id w config.name = .error e) :
    update_zone w config ipv4 pfx6 = (.error e, [Op.listZones config.name])
    ∧ (∀ (name : String) (zs2 : List Zone), w.listZones name = .ok zs2 →
        (2 ≤ zs2.length → zone_id w name = .error (.multipleZones name))
        ∧ (zs2 = [] → zone_id w name = .error (.noZones name))
        ∧ (∀ z : Zone, zs2 = [z] → zone_id w name = .ok z.id))
    ∧ (∀ name : String, w.listZones name = .error () →
        zone_id w name = .error .listZonesTransport) := by
  have hempty : config.records.isEmpty = false := by
    cases h : config.records with
    | nil => exact absurd h hne
    | cons a l => simp
  refine ⟨?_, ?_, ?_⟩
  · unfold update_zone
    rw [hempty, hfail]
    simp
  · intro name zs2 hls2
    refine ⟨?_, ?_, ?_⟩
    · intro hlen
      have h1 : zs2.length > 1 := by omega
      unfold zone_id
      rw [hls2]
      simp [h1]
    · rintro rfl
      unfold zone_id
      rw [hls2]
      simp
    · rintro z rfl
      unfold zone_id
      rw [hls2]
      simp
  · intro name hls2
    unfold zone_id
    rw [hls2]

/-- The world used by the C7 witness: the provider returns two active
zones matching `example.com`. -/
def wC7 : World :=
  ⟨fun name => if name = "example.com" then
       .ok [⟨"zid1", "example.com"⟩, ⟨"zid2", "example.com"⟩]
     else .error (),
   fun _ _ => .error (), fun _ => .error (),
   fun _ => .error (), fun _ => .error (), fun _ => .error (), fun _ => .error ()⟩

/-- Witness for C7: with two matching zones, resolution fails with the
ambiguity error and the zone's trace holds only the zone-listing
request. -/
theorem c7_zone_resolution_witness :
    update_zone wC7 zoneExample (some 9) none =
      (.error (.multipleZones "example.com"), [Op.listZones "example.com"]) := by
  have h := (c7_zone_resolution wC7 zoneExample (some 9) none
    (.multipleZones "example.com") (by simp [zoneExample, recWWW]) rfl).1
  simpa [zoneExample] using h

/-! ## C8 -/

/-- Writing a file and reading it back at the same path yields the
written content. -/
theorem fsGet_fsInsert (fs : FS) (path : String) (h : History) :
    fsGet (fsInsert fs path h) path = some h := by
  induction fs with
  | nil => simp [fsInsert, fsGet]
  | cons kv rest ih =>
    obtain ⟨p2, h2⟩ := kv
    by_cases hp : p2 = path <;> simp [fsInsert, fsGet, hp, ih]

/-- C8: saving any History to a path and restoring from that path yields
the saved value; and restoring from a path with no file returns the
empty History and leaves the file created with that empty content. -/
theorem c8_history_roundtrip (path : String) (h : History) (fs : FS)
    (habsent : fsGet fs path = none) :
    (∀ fs2 : FS, restore_history path (save_history path h fs2)
        = (h, save_history path h fs2))
    ∧ restore_history path fs = (History.empty, save_history path History.empty fs)
    ∧ fsGet (restore_history path fs).snd path = some History.empty := by
  refine ⟨?_, ?_, ?_⟩
  · intro fs2
    unfold restore_history save_history
    rw [fsGet_fsInsert]
  · unfold restore_history
    rw [habsent]
  · unfold restore_history
    rw [habsent]
    simp [save_history, fsGet_fsInsert]

/-- Witness for C8 at a concrete path, history value and empty file
system: the round trip returns the saved value, and restoring from the
absent path creates the empty history file. -/
theorem c8_history_roundtrip_witness :
    restore_history "history.json" (save_history "history.json" ⟨some 1, some 2⟩ [])
      = (⟨some 1, some 2⟩, save_history "history.json" ⟨some 1, some 2⟩ [])
    ∧ restore_history "history.json" []
      = (History.empty, save_history "history.json" History.empty []) := by
  have h := c8_history_roundtrip "history.json" ⟨some 1, some 2⟩ [] rfl
  exact ⟨h.1 [], h.2.1⟩

/-! ## C9 -/

/-- Masking is idempotent: `(a &&& m) &&& m = a &&& m`. -/
theorem land_mask_idem (a m : Nat) : a &&& m &&& m = a &&& m := by
  apply Nat.eq_of_testBit_eq
  intro i
  simp [Nat.testBit_land, Bool.and_assoc]

/-- Every element `itertools::unique` keeps was in the input list. -/
theorem uniqueList_subset (l : List Nat) :
    ∀ (seen : List Nat), ∀ x ∈ uniqueList seen l, x ∈ l := by
  induction l with
  | nil => simp [uniqueList]
  | cons a t ih =>
    intro seen x hx
    unfold uniqueList at hx
    by_cases hc : seen.contains a
    · simp only [hc, if_true] at hx
      exact List.mem_cons_of_mem a (ih seen x hx)
    · simp only [hc, Bool.false_eq_true, if_false, List.mem_cons] at hx
      rcases hx with rfl | hx
      · exact List.mem_cons_self _ _
      · exact List.mem_cons_of_mem a (ih (a :: seen) x hx)

/-- C9: every IPv6 prefix the system stores or compares is pre-masked —
both discovery paths only return masked prefixes, and (given a masked
observation and a masked restored history, which is what the discovery
lemmas and a self-written history file provide) every prefix the Change
Gate outputs and every prefix persisted to History is masked. -/
theorem c9_prefix_always_masked (w : World) (cfg : MainCfg) (o4 o6 : Option Nat)
    (t4 t6 : List Op)
    (h4 : discover4 w cfg = (.ok o4, t4)) (h6 : discover6 w cfg = (.ok o6, t6))
    (hobs : ∀ p, o6 = some p → maskedPfx p)
    (hhist : ∀ p, cfg.history.ipv6_pfx = some p → maskedPfx p) :
    (∀ (addrs : List Nat) (pred : Nat → Bool) (p : Nat),
        interface_ipv6_pfx addrs pred = .ok p → maskedPfx p)
    ∧ (∀ (fetched : Except Unit Nat) (p : Nat),
        http_get_ipv6_pfx fetched = .ok p → maskedPfx p)
    ∧ (∀ p, (o6 = some p ∨ cfg.history.ipv6_pfx = some p) → maskedPfx p)
    ∧ (∀ p, new_ipv6_pfx o6 cfg.history.ipv6_pfx = some p → maskedPfx p)
    ∧ (∀ (h : History) (p : Nat), (runMain w cfg).2.2 = some h →
        h.ipv6_pfx = some p → maskedPfx p) := by
  have hgate : ∀ p, new_ipv6_pfx o6 cfg.history.ipv6_pfx = some p → maskedPfx p := by
    intro p hp
    rcases o6 with _ | v
    · simp [new_ipv6_pfx] at hp
    · rcases hh : cfg.history.ipv6_pfx with _ | q
      · rw [hh] at hp
        simp [new_ipv6_pfx] at hp
        exact hp ▸ hobs v rfl
      · rw [hh] at hp
        by_cases hvq : v = q
        · simp [new_ipv6_pfx, hvq] at hp
        · simp [new_ipv6_pfx, hvq] at hp
          exact hp ▸ hobs v rfl
  refine ⟨?_, ?_, ?_, hgate, ?_⟩
  case refine_3 =>
    rintro p (hcmp | hcmp)
    · exact hobs p hcmp
    · exact hhist p hcmp
  · intro addrs pred p hp
    unfold interface_ipv6_pfx at hp
    rcases hh2 : (uniqueList []
        ((addrs.filter pred).map (fun ip => ip &&& PFX_MASK))).head? with _ | q
    · simp only [hh2] at hp
      cases hp
    · simp only [hh2] at hp
      have hqp : q = p := by injection hp
      subst hqp
      have hq : q ∈ (addrs.filter pred).map (fun ip => ip &&& PFX_MASK) :=
        uniqueList_subset _ [] q (List.mem_of_mem_head? hh2)
      obtain ⟨q0, _, rfl⟩ := List.mem_map.mp hq
      exact land_mask_idem q0 PFX_MASK
  · intro fetched p hp
    rcases fetched with e | ip
    · cases hp
    · cases hp
      exact land_mask_idem ip PFX_MASK
  · intro h p hsaved hpfx
    by_cases hz : cfg.zones = []
    · have hrun : runMain w cfg = (.ok (), [], none) := by
        unfold runMain
        rw [hz]
        simp
      rw [hrun] at hsaved
      cases hsaved
    · rw [runMain_eq_of_discover hz h4 h6] at hsaved
      split_ifs at hsaved
      simp only at hsaved
      cases hsaved
      exact hgate p (by simpa using hpfx)

/-- The world used by the C9 witness: the HTTP IPv6 source is the
`http_get_ipv6_pfx` leaf itself, fed the unmasked fetched address
`2^96 + 5`, so the observed prefix is the masked `2^96`. -/
def wC9 : World :=
  ⟨fun _ => .error (), fun _ _ => .error (), fun _ => .error (),
   fun _ => .error (), fun _ => .error (), fun _ => .error (),
   fun _ => http_get_ipv6_pfx (.ok (2 ^ 96 + 5))⟩

/-- The configuration used by the C9 witness: HTTP IPv6 discovery, one
zone, an empty history. -/
def cfgC9 : MainCfg := ⟨none, none, none, some "u6", [zoneExample], ⟨none, none⟩⟩

/-- Witness for C9: the Change Gate's output prefix at `wC9`/`cfgC9`
(the masked observation, history absent) is masked. -/
theorem c9_prefix_always_masked_witness : maskedPfx ((2 ^ 96 + 5) &&& PFX_MASK) :=
  (c9_prefix_always_masked wC9 cfgC9 none (some ((2 ^ 96 + 5) &&& PFX_MASK))
    [] [Op.discover6] rfl rfl
    (fun p hp => by cases hp; exact land_mask_idem _ _)
    (fun p hp => by cases hp)).2.2.2.1 ((2 ^ 96 + 5) &&& PFX_MASK) rfl

end Cfddns
